import Mathlib

/-!
Shallow embedding of the PyQt-builder sources, covering the build-system
extension hooks (src/pyqtbuild/build_system_extension.py) and the qmake
build driver (src/pyqtbuild/builder.py).  Entities owned by the external
generator framework (classes, functions, arguments) are modelled by the
per-entity attribute bags this repository attaches to them; external
effects (process invocation, filesystem) are modelled by explicit inputs
and outputs.
-/

/- ------------------------------------------------------------------ -/
/- Data model: the per-entity attribute bags (the dataclasses at the  -/
/- bottom of build_system_extension.py).                              -/
/- ------------------------------------------------------------------ -/

/-- The additional data held for an argument (dataclass _ArgumentExtension).
The single field is the value of /ScopesStripped/, default 0. -/
structure _ArgumentExtension where
  scopes_stripped : Int := 0
deriving DecidableEq

/-- The additional data held for a function (dataclass _FunctionExtension). -/
structure _FunctionExtension where
  is_signal : Bool := false
deriving DecidableEq

/-- A function entity owned by the external framework.  `fid` models
Python object identity; `ext` is the lazily created attribute bag, `none`
when `get_extension_data(function)` would return `None`. -/
structure Func where
  fid : Nat
  ext : Option _FunctionExtension
deriving DecidableEq

/-- The additional data held for a class (dataclass _ClassExtension),
with the same fields and defaults as the source. -/
structure _ClassExtension where
  functions_are_signals : Bool := false
  flags : Int := 0
  flags_enums : Option (List String) := none
  interface : Option String := none
  is_qobject : Bool := false
  no_qmetaobject : Bool := false
  signal_data : Option (List (List Func × Bool)) := none
deriving DecidableEq

/-- `True` when a function has an attribute bag whose `is_signal` flag is
set; this is the test on line 190 of build_system_extension.py
(`function_extension is not None and function_extension.is_signal`). -/
def isSignalFn (f : Func) : Bool :=
  match f.ext with
  | some e => e.is_signal
  | none => false

/- ------------------------------------------------------------------ -/
/- PyQtBuildSystemExtension.argument_parse_annotation                 -/
/- (build_system_extension.py lines 16-33).  The external             -/
/- parse_integer_annotation call is represented by its result         -/
/- `parsed_value`; the parsing_error diagnostic is returned as        -/
/- `some (message, location)`.  The result triple is                  -/
/- (diagnostic, new attribute bag, handled flag).                     -/
/- ------------------------------------------------------------------ -/

/-- Model of PyQtBuildSystemExtension.argument_parse_annotation: for name
`ScopesStripped` a parsed value below or equal to 0 produces a
location-tagged diagnostic and leaves the bag alone, otherwise
`get_extension_data(argument, _ArgumentExtension)` lazily creates the bag
and `scopes_stripped` is assigned; in both cases True is returned.  Any
other name returns False without touching anything. -/
def argument_parse_annot (arg : Option _ArgumentExtension) (name : String)
    (parsed_value : Int) (location : Nat) :
    Option (String × Nat) × Option _ArgumentExtension × Bool :=
  if name = "ScopesStripped" then
    if parsed_value ≤ 0 then
      (some ("/ScopesStripped/ must be greater than 0", location), arg, true)
    else
      (none, some { arg.getD {} with scopes_stripped := parsed_value }, true)
  else
    (none, arg, false)

/- ------------------------------------------------------------------ -/
/- PyQtBuildSystemExtension.class_parse_access_specifier              -/
/- (build_system_extension.py lines 51-73).  The class attribute bag  -/
/- is threaded through; the result is the updated bag together with   -/
/- the returned access specifier (`none` models returning None).      -/
/- A combination on which the Python function would read the local    -/
/- `is_signal` without it having been assigned is an `error`.         -/
/- ------------------------------------------------------------------ -/

/-- Model of PyQtBuildSystemExtension.class_parse_access_specifier.  The
source assigns the local `is_signal` only in the two recognised primary
branches; on any other primary the final read of `is_signal` raises
UnboundLocalError, modelled by the `error` constructor. -/
def class_parse_access_specifier (klass : Option _ClassExtension)
    (primary : String) (secondary : Option String) :
    Except String (Option _ClassExtension × Option String) :=
  if primary = "public" ∨ primary = "protected" ∨ primary = "private" then
    match secondary with
    | some s =>
      if s ≠ "slots" ∧ s ≠ "Q_SLOTS" then
        .ok (klass, none)
      else
        .ok (some { klass.getD {} with functions_are_signals := false },
             some primary)
    | none =>
      .ok (some { klass.getD {} with functions_are_signals := false },
           some primary)
  else if primary = "signals" ∨ primary = "Q_SIGNALS" then
    match secondary with
    | some _ => .ok (klass, none)
    | none =>
      .ok (some { klass.getD {} with functions_are_signals := true },
           some "public")
  else
    .error "local variable is_signal referenced before assignment"

/- ------------------------------------------------------------------ -/
/- PyQtBuildSystemExtension.function_complete_parse                   -/
/- (build_system_extension.py lines 145-156).  The second component   -/
/- of the result records whether set_function_release_gil was called. -/
/- ------------------------------------------------------------------ -/

/-- Model of PyQtBuildSystemExtension.function_complete_parse: inside a
class scope whose extension data exists and has `functions_are_signals`
set, the function gains an attribute bag with `is_signal := true` and
/ReleaseGIL/ is implied (the returned Bool). -/
def function_complete_parse (scope_is_class : Bool)
    (klass : Option _ClassExtension) (f : Func) : Func × Bool :=
  if scope_is_class then
    match klass with
    | some ce =>
      if ce.functions_are_signals then
        ({ f with ext := some { f.ext.getD {} with is_signal := true } }, true)
      else
        (f, false)
    | none => (f, false)
  else
    (f, false)

/- ------------------------------------------------------------------ -/
/- PyQtBuildSystemExtension.function_group_complete_definition        -/
/- (build_system_extension.py lines 178-205).                         -/
/- ------------------------------------------------------------------ -/

/-- Model of PyQtBuildSystemExtension.function_group_complete_definition.
For a class scope the loop gathers the signal overloads in order and
notes whether a non-signal overload was seen; a non-empty signal group is
appended to the (lazily created) class extension `signal_data` and every
gathered signal is removed from the original group with `list.remove`,
which deletes the first occurrence. -/
def function_group_complete_definition (scope_is_class : Bool)
    (function_group : List Func) (klass : Option _ClassExtension) :
    List Func × Option _ClassExtension :=
  if scope_is_class then
    let acc := function_group.foldl
      (fun (p : List Func × Bool) f =>
        if isSignalFn f then (p.1 ++ [f], p.2) else (p.1, true))
      ([], false)
    if acc.1.isEmpty then
      (function_group, klass)
    else
      let ce := klass.getD {}
      let new_sd := ce.signal_data.getD [] ++ [(acc.1, acc.2)]
      let remaining := acc.1.foldl (fun g s => g.erase s) function_group
      (remaining, some { ce with signal_data := some new_sd })
  else
    (function_group, klass)

/- ------------------------------------------------------------------ -/
/- PyQtBuildSystemExtension._pyqt_write_signal_table_entry            -/
/- (build_system_extension.py lines 336-382).  The external           -/
/- get_argument_cpp_decl is modelled per argument as a function from  -/
/- the strip depth to the returned declaration text; the argument     -/
/- attribute bag is `ext`.                                            -/
/- ------------------------------------------------------------------ -/

/-- An argument entity: its lazily created attribute bag and the text
that `get_argument_cpp_decl(arg, klass, strip=d)` returns for each strip
depth `d`. -/
structure Arg where
  ext : Option _ArgumentExtension
  decl : Int → List Char

/-- The strip depth passed to the first `get_argument_cpp_decl` call:
the bag value of /ScopesStripped/ when a bag exists, otherwise -1. -/
def stripDepth (a : Arg) : Int :=
  match a.ext with
  | some e => e.scopes_stripped
  | none => -1

/-- The signal argument normalisation of lines 357-363: a declaration
starting with `const ` that either ends with `&` or contains no `*`
loses the leading `const ` and then any trailing `&`.  (The source notes
this is deliberately simplistic for function pointer arguments.) -/
def normaliseDecl (d : List Char) : List Char :=
  if d.take 6 = "const ".toList ∧ (d.getLast? = some '&' ∨ ¬ d.contains '*') then
    let d' := d.drop 6
    if d'.getLast? = some '&' then d'.dropLast else d'
  else
    d

/-- The signature text built by _pyqt_write_signal_table_entry: the first
loop collects the normalised per-argument declarations and notes whether
any argument carries /ScopesStripped/ data; when one does, a second pass
collects the unstripped declarations and appends them as a
vertical-bar-parenthesised suffix. -/
def pyqtSignalSignature (signal_name : List Char) (args : List Arg) :
    List Char :=
  let acc := args.foldl
    (fun (p : Bool × List (List Char)) a =>
      match a.ext with
      | some e => (true, p.2 ++ [normaliseDecl (a.decl e.scopes_stripped)])
      | none => (p.1, p.2 ++ [normaliseDecl (a.decl (-1))]))
    (false, [])
  let stripped_args := List.intercalate [','] acc.2
  let unstripped_args :=
    if acc.1 then
      "|(".toList ++
        List.intercalate [','] (args.foldl (fun l a => l ++ [a.decl (-1)]) []) ++
        ")".toList
    else
      []
  signal_name ++ "(".toList ++ stripped_args ++ ")".toList ++ unstripped_args

/-- The whole table-entry line written on line 382 (the braces of the C
struct literal are the \x7b and \x7d characters). -/
def _pyqt_write_signal_table_entry (signal_name : List Char)
    (args : List Arg) (docstring_ref : List Char) (auto_docstring : Nat)
    (pymethoddef emitter_helper : List Char) : List Char :=
  "    \x7b\"".toList ++ pyqtSignalSignature signal_name args ++
    "\", ".toList ++ docstring_ref ++ ", ".toList ++
    (Nat.repr auto_docstring).toList ++ ", ".toList ++ pymethoddef ++
    ", ".toList ++ emitter_helper ++ "\x7d,\n".toList

/- ------------------------------------------------------------------ -/
/- QmakeBuilder._get_qt_configuration (builder.py lines 488-543).     -/
/- ------------------------------------------------------------------ -/

/-- Python `str.strip()` on a line of query output: whitespace removed
from both ends. -/
def pyStrip (cs : List Char) : List Char :=
  ((cs.dropWhile Char.isWhitespace).reverse.dropWhile Char.isWhitespace).reverse

/-- Python `line.split(':', maxsplit=1)`: `none` when the line holds no
colon (the one-element result whose length check fails on line 502),
otherwise the text before and after the first colon. -/
def splitOnceColon : List Char → Option (List Char × List Char)
  | [] => none
  | c :: cs =>
    if c = ':' then
      some ([], cs)
    else
      match splitOnceColon cs with
      | none => none
      | some p => some (c :: p.1, p.2)

/-- The `name.replace('/', '_')` step of line 511. -/
def slashToUnderscore (c : Char) : Char :=
  if c = '/' then '_' else c

/-- Processing of one line of `qmake -query` output (lines 497-513):
strip it, split at the first colon — no colon is the fatal UserException
of line 503 — and store the name (path separators replaced) with the
value. -/
def processQueryLine (line : List Char) :
    Except (List Char) (List Char × List Char) :=
  let stripped := pyStrip line
  match splitOnceColon stripped with
  | none => .error ("Unexpected output from qmake: ".toList ++ stripped)
  | some p => .ok (p.1.map slashToUnderscore, p.2)

/-- Python `int()` restricted to plain decimal digit strings, the form
the version components of `qmake -query` output take. -/
def decimalToNat? (cs : List Char) : Option Nat :=
  if cs ≠ [] ∧ cs.all Char.isDigit then
    some (cs.foldl (fun n c => n * 10 + (c.toNat - 48)) 0)
  else
    none

/-- Python `qt_version_str.split('.')`. -/
def splitDots : List Char → List (List Char)
  | [] => [[]]
  | c :: cs =>
    if c = '.' then
      [] :: splitDots cs
    else
      match splitDots cs with
      | [] => [[c]]
      | g :: gs => (c :: g) :: gs

/-- The packing loop of lines 519-521: each dotted component is shifted
into the next lower byte position (`qt_version <<= 8; qt_version += int(v)`). -/
def packQtVersion (components : List Nat) : Nat :=
  components.foldl (fun acc v => (acc <<< 8) + v) 0

/-- The packed version computed from a dotted version string, `none` when
a component is not a decimal numeral. -/
def qtVersionFromStr (s : List Char) : Option Nat :=
  ((splitDots s).mapM decimalToNat?).map packQtVersion

/-- The message of the UserException raised on lines 526-529. -/
def qtVersionError : List Char :=
  "Qt v5.6 or later is required".toList

/-- The minimum-version check of lines 526-529: packed versions below
0x050600 raise the fatal UserException. -/
def checkQtVersion (v : Nat) : Except (List Char) Nat :=
  if v < 0x050600 then .error qtVersionError else .ok v

/-- Python tuple comparison `(a1, a2) >= (b1, b2)`: lexicographic. -/
def pyPairGE (a b : Nat × Nat) : Bool :=
  decide (b.1 < a.1 ∨ (a.1 = b.1 ∧ b.2 ≤ a.2))

/-- The version-tag patch computation of lines 531-541: bytes are
extracted from the packed version, then the patch is clamped — zeroed
from 5.13 on, held at 4 for the 5.12 series, untouched otherwise. -/
def qtVersionTagPatch (qt_version : Nat) : Nat :=
  let major := (qt_version >>> 16) &&& 0xff
  let minor := (qt_version >>> 8) &&& 0xff
  let patch := qt_version &&& 0xff
  if pyPairGE (major, minor) (5, 13) then 0
  else if major = 5 ∧ minor = 12 then (if patch > 4 then 4 else patch)
  else patch

/-- The `qt_version_tag` string formatted on line 543. -/
def qtVersionTag (qt_version : Nat) : String :=
  toString ((qt_version >>> 16) &&& 0xff) ++ "_" ++
    toString ((qt_version >>> 8) &&& 0xff) ++ "_" ++
    toString (qtVersionTagPatch qt_version)

/- ------------------------------------------------------------------ -/
/- QmakeBuilder.run_qmake (builder.py lines 257-309).  Only the       -/
/- working-directory discipline is at stake: the filesystem outcome   -/
/- of the qmake invocation is the `makefile_created` input, and the   -/
/- result carries the process working directory at the moment the     -/
/- function returns (`ok`) or the exception escapes (`error`).        -/
/- ------------------------------------------------------------------ -/

/-- Model of QmakeBuilder.run_qmake over the current working directory:
`pro_dir` is the directory part of `os.path.split(pro_name)` (empty when
the .pro file is in the current directory).  A non-empty `pro_dir` saves
the cwd and changes into `pro_dir`; the restore on lines 306-307 runs
only after the makefile-existence check, so the fatal raise and the
non-fatal `return False` both leave the cwd changed. -/
def run_qmake (cwd pro_dir : String) (makefile_created fatal : Bool) :
    Except (String × String) (String × Bool) :=
  let saved : Option String := if pro_dir ≠ "" then some cwd else none
  let cwd1 := if pro_dir ≠ "" then pro_dir else cwd
  if makefile_created then
    let cwd2 := match saved with
      | some c => c
      | none => cwd1
    .ok (cwd2, true)
  else if fatal then
    .error ("qmake failed to create a makefile", cwd1)
  else
    .ok (cwd1, false)

/- ------------------------------------------------------------------ -/
/- Helper lemmas.                                                     -/
/- ------------------------------------------------------------------ -/

/-- The signal-gathering loop of function_group_complete_definition is
the filter of the signal overloads paired with the there-are-non-signals
flag. -/
theorem sigGroupAcc (l : List Func) (init : List Func × Bool) :
    l.foldl (fun (p : List Func × Bool) f =>
        if isSignalFn f then (p.1 ++ [f], p.2) else (p.1, true)) init =
      (init.1 ++ l.filter isSignalFn,
       init.2 || l.any (fun f => !isSignalFn f)) := by
  induction l generalizing init with
  | nil => simp
  | cons a l ih =>
    by_cases h : isSignalFn a <;>
      simp [List.foldl_cons, h, ih, List.filter_cons, List.any_cons]

/-- Erasing elements that all differ from the head leaves the head. -/
theorem foldl_erase_of_ne {α : Type} [DecidableEq α] (ys : List α) (x : α)
    (l : List α) (h : ∀ y ∈ ys, y ≠ x) :
    ys.foldl (fun g s => g.erase s) (x :: l) =
      x :: ys.foldl (fun g s => g.erase s) l := by
  induction ys generalizing l with
  | nil => rfl
  | cons y ys ih =>
    have hxy : ¬ (x == y) = true := by
      simp only [beq_iff_eq]
      exact fun e => h y (by simp) e.symm
    rw [List.foldl_cons, List.foldl_cons, List.erase_cons_tail hxy]
    exact ih _ (fun z hz => h z (by simp [hz]))

/-- Removing, one at a time, every element that satisfies `p` from a list
leaves exactly the elements that do not satisfy `p`. -/
theorem foldl_erase_filter {α : Type} [DecidableEq α] (p : α → Bool)
    (l : List α) :
    (l.filter p).foldl (fun g s => g.erase s) l =
      l.filter (fun x => !p x) := by
  induction l with
  | nil => rfl
  | cons a l ih =>
    by_cases h : p a
    · rw [List.filter_cons_of_pos h, List.foldl_cons, List.erase_cons_head,
        ih, List.filter_cons_of_neg (by simp [h])]
    · rw [List.filter_cons_of_neg h,
        foldl_erase_of_ne _ _ _
          (fun y hy e => h (by rw [← e]; exact (List.mem_filter.mp hy).2)),
        ih, List.filter_cons_of_pos (by simp [h])]

/-- A filter and its complement partition the occurrences of every
element. -/
theorem count_filter_partition {α : Type} [DecidableEq α] (p : α → Bool)
    (l : List α) (x : α) :
    (l.filter p).count x + (l.filter (fun y => !p y)).count x =
      l.count x := by
  induction l with
  | nil => rfl
  | cons a l ih =>
    by_cases h : p a <;>
      simp [List.filter_cons, h, List.count_cons, ih] <;> omega

/-- The non-signal remainder produced by
function_group_complete_definition in a class scope. -/
theorem fgcd_fst (group : List Func) (klass : Option _ClassExtension) :
    (function_group_complete_definition true group klass).1 =
      group.filter (fun f => !isSignalFn f) := by
  by_cases h : group.filter isSignalFn = []
  · have hself : group.filter (fun f => !isSignalFn f) = group :=
      List.filter_eq_self.mpr
        (fun a ha => by simp [List.filter_eq_nil_iff.mp h a ha])
    simp [function_group_complete_definition, sigGroupAcc, h, hself]
  · simp [function_group_complete_definition, sigGroupAcc, h,
      foldl_erase_filter]

/-- The signal data produced by function_group_complete_definition in a
class scope. -/
theorem fgcd_snd (group : List Func) (klass : Option _ClassExtension) :
    (function_group_complete_definition true group klass).2 =
      if (group.filter isSignalFn).isEmpty then klass
      else some { klass.getD {} with
        signal_data := some ((klass.getD {}).signal_data.getD [] ++
          [(group.filter isSignalFn,
            group.any (fun f => !isSignalFn f))]) } := by
  by_cases h : group.filter isSignalFn = [] <;>
    simp [function_group_complete_definition, sigGroupAcc, h]

/- ------------------------------------------------------------------ -/
/- Claim theorems.                                                    -/
/- ------------------------------------------------------------------ -/

/-- C1: for every function group completed inside a class scope,
function_group_complete_definition partitions the group.  The remaining
group is exactly the non-signal overloads in declaration order, the
signal subgroup is exactly the signal overloads in declaration order
(both are sublists of the original group), every occurrence of a
function lands in exactly one of the two (so the union is the original
group and each grouped signal is removed exactly once), and the signal
subgroup is appended to the class extension signal_data with the
non-signals-coexist flag. -/
theorem c1_signal_grouping_partition (group : List Func)
    (klass : Option _ClassExtension) :
    (function_group_complete_definition true group klass).1 =
      group.filter (fun f => !isSignalFn f) ∧
    (group.filter isSignalFn).Sublist group ∧
    ((function_group_complete_definition true group klass).1).Sublist group ∧
    (∀ f : Func,
      (group.filter isSignalFn).count f +
        ((function_group_complete_definition true group klass).1).count f =
      group.count f) ∧
    (function_group_complete_definition true group klass).2 =
      (if (group.filter isSignalFn).isEmpty then klass
       else some { klass.getD {} with
         signal_data := some ((klass.getD {}).signal_data.getD [] ++
           [(group.filter isSignalFn,
             group.any (fun f => !isSignalFn f))]) }) := by
  refine ⟨fgcd_fst group klass, List.filter_sublist group, ?_, ?_,
    fgcd_snd group klass⟩
  · rw [fgcd_fst]
    exact List.filter_sublist group
  · intro f
    rw [fgcd_fst]
    exact count_filter_partition isSignalFn group f

/-- C5: the claim says every unrecognized primary/secondary combination
is rejected by returning None, and the docstring of
class_parse_access_specifier says the same; but for the primaries
`slots` and `Q_SLOTS` — keywords the extension itself registers in
class_get_access_specifier_keywords — neither recognised branch assigns
the local `is_signal`, so the function raises UnboundLocalError instead
of returning None. -/
theorem c5_access_specifier_unbound_local :
    class_parse_access_specifier none "slots" none =
      .error "local variable is_signal referenced before assignment" ∧
    class_parse_access_specifier none "Q_SLOTS" none =
      .error "local variable is_signal referenced before assignment" := by
  exact ⟨rfl, rfl⟩

/-- C6: for the annotation name ScopesStripped, a parsed value below or
equal to 0 is rejected with the location-tagged diagnostic and the
attribute bag is untouched, while a positive value is stored verbatim as
scopes_stripped. -/
theorem c6_scopes_stripped_validation (arg : Option _ArgumentExtension)
    (v : Int) (loc : Nat) :
    (v ≤ 0 → argument_parse_annot arg "ScopesStripped" v loc =
      (some ("/ScopesStripped/ must be greater than 0", loc), arg, true)) ∧
    (0 < v → argument_parse_annot arg "ScopesStripped" v loc =
      (none, some { scopes_stripped := v }, true)) := by
  constructor
  · intro h
    simp [argument_parse_annot, h]
  · intro h
    simp [argument_parse_annot, show ¬ v ≤ 0 by omega]

/-- Witness for C6 at the concrete rejected value -3 and accepted
value 2. -/
theorem c6_scopes_stripped_validation_witness :
    argument_parse_annot none "ScopesStripped" (-3) 7 =
      (some ("/ScopesStripped/ must be greater than 0", 7), none, true) ∧
    argument_parse_annot none "ScopesStripped" 2 7 =
      (none, some { scopes_stripped := 2 }, true) :=
  ⟨(c6_scopes_stripped_validation none (-3) 7).1 (by decide),
   (c6_scopes_stripped_validation none 2 7).2 (by decide)⟩

/-- C10 (implicit): argument_parse_annot answers True for ScopesStripped
whatever the value is, the rejection path leaves the argument attribute
bag exactly as it was (in particular it is not created), and any other
annotation name answers False with nothing touched. -/
theorem c10_annot_marker_frame (arg : Option _ArgumentExtension)
    (name : String) (v : Int) (loc : Nat) :
    (name = "ScopesStripped" →
      ((argument_parse_annot arg name v loc).2.2 = true ∧
       (v ≤ 0 → (argument_parse_annot arg name v loc).2.1 = arg))) ∧
    (name ≠ "ScopesStripped" →
      argument_parse_annot arg name v loc = (none, arg, false)) := by
  constructor
  · rintro rfl
    constructor
    · by_cases h : v ≤ 0 <;> simp [argument_parse_annot, h]
    · intro h
      simp [argument_parse_annot, h]
  · intro h
    simp [argument_parse_annot, h]

/-- Witness for C10 at a rejected ScopesStripped value and at an
unrecognised annotation name. -/
theorem c10_annot_marker_frame_witness :
    (argument_parse_annot none "ScopesStripped" (-1) 0).2.2 = true ∧
    (argument_parse_annot none "ScopesStripped" (-1) 0).2.1 = none ∧
    argument_parse_annot none "Other" (-1) 0 = (none, none, false) :=
  ⟨((c10_annot_marker_frame none "ScopesStripped" (-1) 0).1 rfl).1,
   ((c10_annot_marker_frame none "ScopesStripped" (-1) 0).1 rfl).2
     (by decide),
   (c10_annot_marker_frame none "Other" (-1) 0).2 (by decide)⟩

/-- C7 (end-to-end): after the access-specifier sequence `signals:` the
class extension flags functions as signals, three freshly declared
methods completed under that class all gain is_signal (in declaration
order), and function_group_complete_definition moves all three into the
class signal group and leaves the plain-method group empty. -/
theorem c7_signals_end_to_end (a b c : Nat) :
    class_parse_access_specifier none "signals" none =
      .ok (some { functions_are_signals := true }, some "public") ∧
    ([⟨a, none⟩, ⟨b, none⟩, ⟨c, none⟩] : List Func).map
        (fun f => (function_complete_parse true
          (some { functions_are_signals := true }) f).1) =
      [⟨a, some { is_signal := true }⟩, ⟨b, some { is_signal := true }⟩,
       ⟨c, some { is_signal := true }⟩] ∧
    (([⟨a, none⟩, ⟨b, none⟩, ⟨c, none⟩] : List Func).map
        (fun f => (function_complete_parse true
          (some { functions_are_signals := true }) f).1)).all
      isSignalFn = true ∧
    function_group_complete_definition true
        (([⟨a, none⟩, ⟨b, none⟩, ⟨c, none⟩] : List Func).map
          (fun f => (function_complete_parse true
            (some { functions_are_signals := true }) f).1))
        (some { functions_are_signals := true }) =
      ([], some { functions_are_signals := true,
                  signal_data := some
                    [([⟨a, some { is_signal := true }⟩,
                       ⟨b, some { is_signal := true }⟩,
                       ⟨c, some { is_signal := true }⟩], false)] }) := by
  refine ⟨rfl, rfl, rfl, ?_⟩
  have h1 := fgcd_fst
    ([⟨a, some { is_signal := true }⟩, ⟨b, some { is_signal := true }⟩,
      ⟨c, some { is_signal := true }⟩] : List Func)
    (some { functions_are_signals := true })
  have h2 := fgcd_snd
    ([⟨a, some { is_signal := true }⟩, ⟨b, some { is_signal := true }⟩,
      ⟨c, some { is_signal := true }⟩] : List Func)
    (some { functions_are_signals := true })
  simp only [isSignalFn, List.filter_cons, List.filter_nil] at h1 h2
  refine Prod.ext ?_ ?_
  · rw [show (([⟨a, none⟩, ⟨b, none⟩, ⟨c, none⟩] : List Func).map
      (fun f => (function_complete_parse true
        (some { functions_are_signals := true }) f).1)) =
      [⟨a, some { is_signal := true }⟩, ⟨b, some { is_signal := true }⟩,
       ⟨c, some { is_signal := true }⟩] from rfl]
    simpa using h1
  · rw [show (([⟨a, none⟩, ⟨b, none⟩, ⟨c, none⟩] : List Func).map
      (fun f => (function_complete_parse true
        (some { functions_are_signals := true }) f).1)) =
      [⟨a, some { is_signal := true }⟩, ⟨b, some { is_signal := true }⟩,
       ⟨c, some { is_signal := true }⟩] from rfl]
    simpa using h2

/-- Bits shifted left by `k` do not overlap a value below `2 ^ k`, so or
coincides with addition there. -/
theorem lor_shiftLeft_add (a k x : Nat) (hx : x < 2 ^ k) :
    (a <<< k) ||| x = (a <<< k) + x := by
  apply Nat.eq_of_testBit_eq
  intro i
  rw [Nat.testBit_or, Nat.shiftLeft_eq, Nat.mul_comm,
    Nat.testBit_mul_pow_two_add a hx i, Nat.testBit_mul_pow_two]
  by_cases h : i < k
  · simp [h, Nat.not_le.mpr h]
  · have hxk : x < 2 ^ i :=
      lt_of_lt_of_le hx (Nat.pow_le_pow_right (by omega) (Nat.not_lt.mp h))
    simp [h, Nat.not_lt.mp h, Nat.testBit_lt_two_pow hxk]

/-- C2: a dotted version string that parses as three components M.m.p
(with the minor and patch components fitting a byte, as every Qt version
does) is packed to (M<<16)|(m<<8)|p by the shift-and-add loop of
_get_qt_configuration, and a packed version below 0x050600 raises the
fatal UserException. -/
theorem c2_packed_qt_version (s : List Char) (M m p : Nat)
    (hparse : (splitDots s).mapM decimalToNat? = some [M, m, p])
    (hm : m < 256) (hp : p < 256) :
    qtVersionFromStr s = some ((M <<< 16) ||| (m <<< 8) ||| p) ∧
    (((M <<< 16) ||| (m <<< 8) ||| p) < 0x050600 →
      checkQtVersion ((M <<< 16) ||| (m <<< 8) ||| p) =
        .error qtVersionError) := by
  have hpack : (M <<< 16) ||| (m <<< 8) ||| p =
      packQtVersion [M, m, p] := by
    have h8 : (m <<< 8) ||| p = (m <<< 8) + p :=
      lor_shiftLeft_add m 8 p (by omega)
    have hlt : (m <<< 8) + p < 2 ^ 16 := by
      rw [Nat.shiftLeft_eq]
      omega
    rw [Nat.lor_assoc, h8, lor_shiftLeft_add M 16 _ hlt]
    simp only [packQtVersion, List.foldl_cons, List.foldl_nil,
      Nat.shiftLeft_eq]
    ring_nf
  constructor
  · rw [qtVersionFromStr, hparse, Option.map_some', hpack]
  · intro h
    rw [checkQtVersion, if_pos h]

/-- Witness for C2 at the rejected version string 5.5.1. -/
theorem c2_packed_qt_version_witness :
    qtVersionFromStr "5.5.1".toList =
      some ((5 <<< 16) ||| (5 <<< 8) ||| 1) ∧
    checkQtVersion ((5 <<< 16) ||| (5 <<< 8) ||| 1) =
      .error qtVersionError := by
  have h := c2_packed_qt_version "5.5.1".toList 5 5 1 (by decide)
    (by decide) (by decide)
  exact ⟨h.1, h.2 (by decide)⟩

/-- C3: for every packed version the minimum-version check accepts, the
version-tag patch byte is zeroed when (major, minor) is lexicographically
at least (5, 13), clamped to at most 4 when (major, minor) is exactly
(5, 12), and passed through unchanged otherwise; the tag is the three
components joined by underscores. -/
theorem c3_version_tag_clamping (v : Nat) (_hv : 0x050600 ≤ v) :
    qtVersionTagPatch v =
      (if 5 < (v >>> 16) &&& 0xff ∨
          ((v >>> 16) &&& 0xff = 5 ∧ 13 ≤ (v >>> 8) &&& 0xff) then 0
       else if (v >>> 16) &&& 0xff = 5 ∧ (v >>> 8) &&& 0xff = 12 then
         min (v &&& 0xff) 4
       else v &&& 0xff) ∧
    qtVersionTag v =
      toString ((v >>> 16) &&& 0xff) ++ "_" ++
        toString ((v >>> 8) &&& 0xff) ++ "_" ++
        toString (qtVersionTagPatch v) := by
  refine ⟨?_, rfl⟩
  simp only [qtVersionTagPatch, pyPairGE, decide_eq_true_eq]
  split_ifs <;> first | rfl | omega

/-- Witness for C3 at the accepted packed version of 5.12.7, whose patch
is clamped to 4. -/
theorem c3_version_tag_clamping_witness :
    qtVersionTagPatch 0x050c07 = 4 ∧ qtVersionTag 0x050c07 = "5_12_4" := by
  have h := c3_version_tag_clamping 0x050c07 (by decide)
  have hp : qtVersionTagPatch 0x050c07 = 4 := by
    rw [h.1]
    decide
  refine ⟨hp, ?_⟩
  rw [h.2, hp]
  decide

/-- splitOnceColon finds nothing exactly on colon-free text, and
otherwise cuts at the first colon. -/
theorem splitOnceColon_eq (cs : List Char) :
    splitOnceColon cs =
      (if cs.count ':' = 0 then none
       else some (cs.takeWhile (fun c => c ≠ ':'),
         (cs.dropWhile (fun c => c ≠ ':')).drop 1)) := by
  induction cs with
  | nil => rfl
  | cons c cs ih =>
    by_cases hc : c = ':'
    · subst hc
      simp [splitOnceColon, List.count_cons, List.takeWhile_cons,
        List.dropWhile_cons]
    · rw [splitOnceColon]
      rw [if_neg hc, ih]
      by_cases h0 : cs.count ':' = 0
      · simp [h0, List.count_cons, hc]
      · simp [h0, List.count_cons, hc, List.takeWhile_cons,
          List.dropWhile_cons]

/-- C4 counterexample: the claim says a query line without exactly one
colon separator is fatal, but a line holding two colons (the shape every
Windows pathname value takes) is split at the first colon and stored
without error. -/
theorem c4_colon_parsing_counterexample :
    ("QT_INSTALL_PREFIX:C:/Qt".toList.count ':' ≠ 1) ∧
    processQueryLine "QT_INSTALL_PREFIX:C:/Qt".toList =
      .ok ("QT_INSTALL_PREFIX".toList, "C:/Qt".toList) := by
  constructor
  · decide
  · rfl

/-- C4 amended: a stripped query line with no colon at all raises the
fatal UserException; a line with at least one colon is split at the
first colon, the name keeps the text before it with path separators
turned into underscores, and the value is everything after it. -/
theorem c4_colon_parsing_amended (line : List Char) :
    processQueryLine line =
      (if (pyStrip line).count ':' = 0 then
        .error ("Unexpected output from qmake: ".toList ++ pyStrip line)
       else
        .ok (((pyStrip line).takeWhile (fun c => c ≠ ':')).map
            slashToUnderscore,
          ((pyStrip line).dropWhile (fun c => c ≠ ':')).drop 1)) := by
  rw [processQueryLine]
  rw [splitOnceColon_eq]
  by_cases h : (pyStrip line).count ':' = 0 <;> simp [h]

/-- C8 counterexample: the claim says the working directory is restored
on the non-fatal failure return path, but run_qmake returns False with
the process still in the .pro directory. -/
theorem c8_cwd_restore_counterexample :
    run_qmake "/home/user" "/tmp/build" false false =
      .ok ("/tmp/build", false) ∧
    ("/tmp/build" : String) ≠ "/home/user" := by
  constructor
  · rfl
  · decide

/-- C8 amended: for a .pro file in a different directory the working
directory is saved and restored on the successful paths (fatal or not),
while the non-fatal failure return and the fatal exception both leave
the process in the .pro directory. -/
theorem c8_cwd_restore_amended (cwd pro_dir : String)
    (h : pro_dir ≠ "") :
    (∀ fatal, run_qmake cwd pro_dir true fatal = .ok (cwd, true)) ∧
    run_qmake cwd pro_dir false false = .ok (pro_dir, false) ∧
    run_qmake cwd pro_dir false true =
      .error ("qmake failed to create a makefile", pro_dir) := by
  refine ⟨fun fatal => ?_, ?_, ?_⟩ <;> simp [run_qmake, h]

/-- Witness for C8 amended at concrete directories, successful path. -/
theorem c8_cwd_restore_amended_witness :
    run_qmake "/home/user" "/tmp/build" true true =
      .ok ("/home/user", true) :=
  (c8_cwd_restore_amended "/home/user" "/tmp/build" (by decide)).1 true

/-- The first loop of _pyqt_write_signal_table_entry accumulates the
normalised declarations in order and the carries-stripping-data flag. -/
theorem sigEntryAcc (args : List Arg) (b : Bool) (l : List (List Char)) :
    args.foldl
      (fun (p : Bool × List (List Char)) a =>
        match a.ext with
        | some e => (true, p.2 ++ [normaliseDecl (a.decl e.scopes_stripped)])
        | none => (p.1, p.2 ++ [normaliseDecl (a.decl (-1))]))
      (b, l) =
    (b || args.any (fun a => a.ext.isSome),
     l ++ args.map (fun a => normaliseDecl (a.decl (stripDepth a)))) := by
  induction args generalizing b l with
  | nil => simp
  | cons a as ih =>
    cases ha : a.ext with
    | some e =>
      simp [List.foldl_cons, ha, ih, stripDepth, List.any_cons]
    | none =>
      simp [List.foldl_cons, ha, ih, stripDepth, List.any_cons]

/-- The second loop of _pyqt_write_signal_table_entry collects the
unstripped declarations in order. -/
theorem unstrippedAcc (args : List Arg) (l : List (List Char)) :
    args.foldl (fun l a => l ++ [a.decl (-1)]) l =
      l ++ args.map (fun a => a.decl (-1)) := by
  induction args generalizing l with
  | nil => simp
  | cons a as ih => simp [List.foldl_cons, ih]

/-- C9: the table entry written for a signal carries the normalised
signature — each argument declaration rewritten by the const-reference
stripping rule, joined by commas — and the alternate unstripped-signature
suffix appears exactly when some argument carries /ScopesStripped/ data
(the condition under which a per-argument stripping depth differs from
the default -1). -/
theorem c9_signal_table_entry (signal_name : List Char) (args : List Arg)
    (docstring_ref : List Char) (auto_docstring : Nat)
    (pymethoddef emitter_helper : List Char) :
    _pyqt_write_signal_table_entry signal_name args docstring_ref
        auto_docstring pymethoddef emitter_helper =
      "    \x7b\"".toList ++ signal_name ++ "(".toList ++
        List.intercalate [',']
          (args.map (fun a => normaliseDecl (a.decl (stripDepth a)))) ++
        ")".toList ++
        (if args.any (fun a => a.ext.isSome) then
          "|(".toList ++
            List.intercalate [','] (args.map (fun a => a.decl (-1))) ++
            ")".toList
         else []) ++
        "\", ".toList ++ docstring_ref ++ ", ".toList ++
        (Nat.repr auto_docstring).toList ++ ", ".toList ++ pymethoddef ++
        ", ".toList ++ emitter_helper ++ "\x7d,\n".toList ∧
    ((args.any (fun a => a.ext.isSome)) = true ↔
      ∃ a ∈ args, a.ext ≠ none) := by
  constructor
  · rw [_pyqt_write_signal_table_entry, pyqtSignalSignature]
    rw [sigEntryAcc, unstrippedAcc]
    simp [List.append_assoc]
  · simp [List.any_eq_true, Option.isSome_iff_ne_none]
